import Mathlib

/-!
# mogodb/mongo-init.js

A shallow embedding of the MongoDB initialisation script `mongo-init.js`:

* `Value` / `Document`: the BSON-like values the script writes as object literals;
* `seedUsers`, `seedProducts`, `seedOrders`: the three literal batches (lines 8-168);
* `Database`, `Database.insertMany`, `Database.createIndex`: the part of the external
  database engine the script calls;
* `Script`: explicit state passing over the shell session, stopping at the first failed call
  while keeping the state reached so far;
* `mongoInit`: the script itself, statement by statement.

Number literals are read as the decimal numbers they denote (`Rat`).
-/

namespace MongoInit

/-! ## Values and documents -/

/-- The values that occur in the object literals of the script. `objectId n` is the value of the
`n`-th call of `ObjectId()`, `date none` is `new Date()` (the time of the run, left abstract) and
`date (some s)` is `new Date(s)`. -/
inductive Value where
  | null
  | bool (b : Bool)
  | num (q : Rat)
  | str (s : String)
  | arr (xs : List Value)
  | obj (fields : List (String × Value))
  | objectId (n : Nat)
  | date (arg : Option String)

/-- An object literal: its fields in the order they are written. -/
abbrev Document := List (String × Value)

mutual
/-- Decidable equality of values, by recursion on the first value. -/
def Value.decEq : (a b : Value) → Decidable (a = b)
  | .null, .null => isTrue rfl
  | .bool a, .bool b => decidable_of_iff (a = b) (by simp)
  | .num a, .num b => decidable_of_iff (a = b) (by simp)
  | .str a, .str b => decidable_of_iff (a = b) (by simp)
  | .arr xs, .arr ys =>
    match Value.decEqList xs ys with
    | isTrue h => isTrue (by rw [h])
    | isFalse h => isFalse (by simpa using h)
  | .obj fs, .obj gs =>
    match Value.decEqFields fs gs with
    | isTrue h => isTrue (by rw [h])
    | isFalse h => isFalse (by simpa using h)
  | .objectId a, .objectId b => decidable_of_iff (a = b) (by simp)
  | .date a, .date b => decidable_of_iff (a = b) (by simp)
  | .null, .bool _ | .null, .num _ | .null, .str _ | .null, .arr _ | .null, .obj _
  | .null, .objectId _ | .null, .date _ => isFalse (by simp)
  | .bool _, .null | .bool _, .num _ | .bool _, .str _ | .bool _, .arr _ | .bool _, .obj _
  | .bool _, .objectId _ | .bool _, .date _ => isFalse (by simp)
  | .num _, .null | .num _, .bool _ | .num _, .str _ | .num _, .arr _ | .num _, .obj _
  | .num _, .objectId _ | .num _, .date _ => isFalse (by simp)
  | .str _, .null | .str _, .bool _ | .str _, .num _ | .str _, .arr _ | .str _, .obj _
  | .str _, .objectId _ | .str _, .date _ => isFalse (by simp)
  | .arr _, .null | .arr _, .bool _ | .arr _, .num _ | .arr _, .str _ | .arr _, .obj _
  | .arr _, .objectId _ | .arr _, .date _ => isFalse (by simp)
  | .obj _, .null | .obj _, .bool _ | .obj _, .num _ | .obj _, .str _ | .obj _, .arr _
  | .obj _, .objectId _ | .obj _, .date _ => isFalse (by simp)
  | .objectId _, .null | .objectId _, .bool _ | .objectId _, .num _ | .objectId _, .str _
  | .objectId _, .arr _ | .objectId _, .obj _ | .objectId _, .date _ => isFalse (by simp)
  | .date _, .null | .date _, .bool _ | .date _, .num _ | .date _, .str _
  | .date _, .arr _ | .date _, .obj _ | .date _, .objectId _ => isFalse (by simp)
termination_by structural x => x
/-- Decidable equality of arrays of values. -/
def Value.decEqList : (xs ys : List Value) → Decidable (xs = ys)
  | [], [] => isTrue rfl
  | [], _ :: _ => isFalse (by simp)
  | _ :: _, [] => isFalse (by simp)
  | x :: xs, y :: ys =>
    match Value.decEq x y, Value.decEqList xs ys with
    | isTrue h, isTrue t => isTrue (by rw [h, t])
    | isFalse h, _ => isFalse (by simp [h])
    | _, isFalse t => isFalse (by simp [t])
termination_by structural x => x
/-- Decidable equality of field lists. -/
def Value.decEqFields : (fs gs : List (String × Value)) → Decidable (fs = gs)
  | [], [] => isTrue rfl
  | [], _ :: _ => isFalse (by simp)
  | _ :: _, [] => isFalse (by simp)
  | (k, v) :: fs, (l, w) :: gs =>
    match String.decEq k l, Value.decEq v w, Value.decEqFields fs gs with
    | isTrue hk, isTrue h, isTrue t => isTrue (by rw [hk, h, t])
    | isFalse hk, _, _ => isFalse (by simp [hk])
    | _, isFalse h, _ => isFalse (by simp [h])
    | _, _, isFalse t => isFalse (by simp [t])
termination_by structural x => x
end

instance : DecidableEq Value := Value.decEq

/-- The value an index sees for field `k` of a document: a missing field counts as `null`. -/
def Document.key (d : Document) (k : String) : Value :=
  (d.lookup k).getD Value.null

/-! ## The seed batches (lines 8-168) -/

open Value in
/-- The array literal passed to `db.users.insertMany` (lines 8-54); the three `ObjectId()` calls
yield the ids `i`, `i + 1`, `i + 2`. -/
def seedUsers (i : Nat) : List Document :=
  [ [ ("_id", objectId i),
      ("name", str "John Doe"),
      ("email", str "john.doe@example.com"),
      ("age", num 30),
      ("role", str "developer"),
      ("skills", arr [str "JavaScript", str "Python", str "MongoDB"]),
      ("address", obj [("street", str "123 Main St"), ("city", str "New York"),
        ("country", str "USA")]),
      ("createdAt", date none),
      ("isActive", bool true) ],
    [ ("_id", objectId (i + 1)),
      ("name", str "Jane Smith"),
      ("email", str "jane.smith@example.com"),
      ("age", num 28),
      ("role", str "designer"),
      ("skills", arr [str "UI/UX", str "Figma", str "Adobe Creative Suite"]),
      ("address", obj [("street", str "456 Oak Ave"), ("city", str "San Francisco"),
        ("country", str "USA")]),
      ("createdAt", date none),
      ("isActive", bool true) ],
    [ ("_id", objectId (i + 2)),
      ("name", str "Bob Johnson"),
      ("email", str "bob.johnson@example.com"),
      ("age", num 35),
      ("role", str "manager"),
      ("skills", arr [str "Leadership", str "Project Management", str "Strategy"]),
      ("address", obj [("street", str "789 Pine Rd"), ("city", str "Seattle"),
        ("country", str "USA")]),
      ("createdAt", date none),
      ("isActive", bool false) ] ]

open Value in
/-- The array literal passed to `db.products.insertMany` (lines 57-115). -/
def seedProducts (i : Nat) : List Document :=
  [ [ ("_id", objectId i),
      ("name", str "Laptop Pro"),
      ("description", str "High-performance laptop for professionals"),
      ("price", num 1299.99),
      ("category", str "Electronics"),
      ("brand", str "TechCorp"),
      ("inStock", bool true),
      ("quantity", num 25),
      ("specifications", obj [("processor", str "Intel i7"), ("ram", str "16GB"),
        ("storage", str "512GB SSD"), ("screen", str "15.6 inch")]),
      ("tags", arr [str "laptop", str "professional", str "high-performance"]),
      ("createdAt", date none),
      ("updatedAt", date none) ],
    [ ("_id", objectId (i + 1)),
      ("name", str "Wireless Mouse"),
      ("description", str "Ergonomic wireless mouse with precision tracking"),
      ("price", num 29.99),
      ("category", str "Electronics"),
      ("brand", str "MouseTech"),
      ("inStock", bool true),
      ("quantity", num 150),
      ("specifications", obj [("connectivity", str "Bluetooth 5.0"),
        ("battery", str "Rechargeable Li-ion"), ("dpi", str "1600"), ("color", str "Black")]),
      ("tags", arr [str "mouse", str "wireless", str "ergonomic"]),
      ("createdAt", date none),
      ("updatedAt", date none) ],
    [ ("_id", objectId (i + 2)),
      ("name", str "Coffee Maker"),
      ("description", str "Automatic drip coffee maker with programmable timer"),
      ("price", num 89.99),
      ("category", str "Home & Kitchen"),
      ("brand", str "BrewMaster"),
      ("inStock", bool false),
      ("quantity", num 0),
      ("specifications", obj [("capacity", str "12 cups"),
        ("features", arr [str "Programmable", str "Auto-shutoff", str "Keep warm"]),
        ("material", str "Stainless steel"), ("color", str "Silver")]),
      ("tags", arr [str "coffee", str "kitchen", str "appliance"]),
      ("createdAt", date none),
      ("updatedAt", date none) ] ]

open Value in
/-- The array literal passed to `db.orders.insertMany` (lines 118-168). -/
def seedOrders (i : Nat) : List Document :=
  [ [ ("_id", objectId i),
      ("orderId", str "ORD-001"),
      ("userId", str "john.doe@example.com"),
      ("items", arr [
        obj [("productName", str "Laptop Pro"), ("quantity", num 1), ("price", num 1299.99)],
        obj [("productName", str "Wireless Mouse"), ("quantity", num 2), ("price", num 29.99)]]),
      ("totalAmount", num 1359.97),
      ("status", str "completed"),
      ("shippingAddress", obj [("street", str "123 Main St"), ("city", str "New York"),
        ("country", str "USA"), ("zipCode", str "10001")]),
      ("orderDate", date (some "2024-09-01")),
      ("deliveryDate", date (some "2024-09-05")) ],
    [ ("_id", objectId (i + 1)),
      ("orderId", str "ORD-002"),
      ("userId", str "jane.smith@example.com"),
      ("items", arr [
        obj [("productName", str "Coffee Maker"), ("quantity", num 1), ("price", num 89.99)]]),
      ("totalAmount", num 89.99),
      ("status", str "pending"),
      ("shippingAddress", obj [("street", str "456 Oak Ave"), ("city", str "San Francisco"),
        ("country", str "USA"), ("zipCode", str "94102")]),
      ("orderDate", date (some "2024-09-03")),
      ("deliveryDate", null) ] ]

/-! ## The database engine, as far as the script calls it -/

/-- Modelled from the spec: an index of the external database engine, which is not part of the
repository ("create an index on a named collection with a field specification and options"):
the collection it is on, its field specification as written in the call (`1` for an ordinary
key, `"text"` for a text key) and whether it enforces uniqueness. -/
structure Index where
  coll : String
  keys : Document
  unique : Bool
deriving DecidableEq

/-- Modelled from the spec: whether an index of the external engine is a text-search index,
that is, one of its fields is specified as `"text"`. -/
def Index.isText (ix : Index) : Bool :=
  ix.keys.any (fun kv => decide (kv.2 = Value.str "text"))

/-- Modelled from the spec: the key of a document under an index of the external engine: the
values of the indexed fields, in the order of the field specification. -/
def Index.keyOf (ix : Index) (d : Document) : List Value :=
  ix.keys.map (fun kv => d.key kv.1)

/-- Modelled from the spec: the errors of the external engine. `duplicateKey ix` is the
constraint violation on the unique index `ix` ("constraint violation on the unique email index
when seed data collides with pre-existing data"); `indexOptionsConflict ix` is raised when an
index with the same field specification but another uniqueness option already exists. -/
inductive MongoError where
  | duplicateKey (index : Index)
  | indexOptionsConflict (existing : Index)
deriving DecidableEq

/-- Modelled from the spec: one database of the external engine: the documents of each named
collection, in insertion order (a collection that does not exist has none), and the declared
indexes. The implicit index on `_id` is left out: `ObjectId()` never repeats an id. -/
structure Database where
  docs : String → List Document
  indexes : List Index

/-- Modelled from the spec: the empty database: no collections, no indexes. -/
def Database.empty : Database :=
  { docs := fun _ => [], indexes := [] }

/-- Modelled from the spec: whether index `ix` of the external engine refuses document `d` for
collection `coll` holding `existing`: the index is on `coll`, is unique, and some existing
document has the same key. -/
def Index.rejects (ix : Index) (coll : String) (existing : List Document) (d : Document) : Bool :=
  decide (ix.coll = coll) && ix.unique &&
    existing.any (fun e => decide (ix.keyOf e = ix.keyOf d))

/-- Modelled from the spec: insertion of one document by the external engine: it fails with a
duplicate-key error when a unique index on the collection refuses the document ("attempting to
insert a second user with an existing email fails"), and appends the document otherwise. -/
def Database.insert (db : Database) (coll : String) (d : Document) : Except MongoError Database :=
  match db.indexes.find? (fun ix => ix.rejects coll (db.docs coll) d) with
  | some ix => .error (.duplicateKey ix)
  | none => .ok { db with docs := fun c => if c = coll then db.docs coll ++ [d] else db.docs c }

/-- Modelled from the spec: "insert many documents into a named collection" of the external
engine: the documents are inserted in order; the first failure stops the batch and the
documents inserted before it stay ("no rollback of earlier successful inserts"). -/
def Database.insertMany (db : Database) (coll : String) :
    List Document → Database × Option MongoError
  | [] => (db, none)
  | d :: ds =>
    match db.insert coll d with
    | .error e => (db, some e)
    | .ok db1 => db1.insertMany coll ds

/-- Modelled from the spec: the `unique` option of a `createIndex` call (absent means false). -/
def optUnique (opts : Document) : Bool :=
  decide (opts.lookup "unique" = some (Value.bool true))

/-- Modelled from the spec: "create an index on a named collection with a field specification
and options" of the external engine. An index with the same specification and options that
already exists is kept as it is; one with the same specification and another uniqueness option
is a conflict; a unique index over documents that share a key fails with a duplicate-key error
("insert or index-creation error"); otherwise the index is added. -/
def Database.createIndex (db : Database) (coll : String) (keys opts : Document) :
    Except MongoError Database :=
  let ix : Index := { coll := coll, keys := keys, unique := optUnique opts }
  match db.indexes.find? (fun e => decide (e.coll = coll) && decide (e.keys = keys)) with
  | some e => if e.unique = ix.unique then .ok db else .error (.indexOptionsConflict e)
  | none =>
    if ix.unique && decide (¬ ((db.docs coll).map ix.keyOf).Nodup) then
      .error (.duplicateKey ix)
    else .ok { db with indexes := db.indexes ++ [ix] }

/-- Modelled from the spec: "count documents in a collection" of the external engine. -/
def Database.countDocuments (db : Database) (coll : String) : Nat :=
  (db.docs coll).length

/-! ## The shell session -/

/-- The state the script runs in: the databases of the server by name, the name of the database
the global `db` is bound to, the number of ids `ObjectId()` has issued, and the printed lines. -/
structure Shell where
  server : String → Database
  db : String
  nextId : Nat
  out : List String

/-- The database calls of the script. -/
inductive Call where
  | insertMany (coll : String)
  | createIndex (coll : String) (keys opts : Document)
deriving DecidableEq

/-- A failed call: which call it was and the error of the engine. -/
structure Failure where
  call : Call
  error : MongoError
deriving DecidableEq

/-- A statement of the script: it returns a value or the failure that aborts the script, and in
both cases the state it leaves behind. -/
def Script (α : Type) : Type := Shell → Except Failure α × Shell

/-- Sequencing: a failure skips what follows. -/
def Script.bind {α β : Type} (m : Script α) (f : α → Script β) : Script β := fun s =>
  match m s with
  | (.ok a, s1) => f a s1
  | (.error e, s1) => (.error e, s1)

instance : Monad Script where
  pure a := fun s => (.ok a, s)
  bind := Script.bind

/-- The current database of the session. -/
def Shell.current (s : Shell) : Database := s.server s.db

/-- The session with the current database replaced. -/
def Shell.setCurrent (s : Shell) (d : Database) : Shell :=
  { s with server := fun n => if n = s.db then d else s.server n }

/-- The assignment `db = db.getSiblingDB(name)` (line 5). -/
def getSiblingDB (name : String) : Script Unit := fun s =>
  (.ok (), { s with db := name })

/-- The next `k` calls of `ObjectId()`: returns the first of the `k` consecutive ids. -/
def ObjectId (k : Nat) : Script Nat := fun s =>
  (.ok s.nextId, { s with nextId := s.nextId + k })

/-- The call `db.<coll>.insertMany(docs)`. -/
def insertMany (coll : String) (docs : List Document) : Script Unit := fun s =>
  match s.current.insertMany coll docs with
  | (d, none) => (.ok (), s.setCurrent d)
  | (d, some e) => (.error { call := .insertMany coll, error := e }, s.setCurrent d)

/-- The call `db.<coll>.createIndex(keys, opts)`. -/
def createIndex (coll : String) (keys opts : Document) : Script Unit := fun s =>
  match s.current.createIndex coll keys opts with
  | .ok d => (.ok (), s.setCurrent d)
  | .error e => (.error { call := .createIndex coll keys opts, error := e }, s)

/-- The call `db.<coll>.countDocuments()`. -/
def countDocuments (coll : String) : Script Nat := fun s =>
  (.ok (s.current.countDocuments coll), s)

/-- The call `print(args...)`: one output line, the arguments separated by a blank. -/
def print (args : List String) : Script Unit := fun s =>
  (.ok (), { s with out := s.out ++ [" ".intercalate args] })

/-! ## The script -/

open Value in
/-- The script `mongo-init.js`, statement by statement. -/
def mongoInit : Script Unit := do
  getSiblingDB "myapp"
  let u ← ObjectId 3
  insertMany "users" (seedUsers u)
  let p ← ObjectId 3
  insertMany "products" (seedProducts p)
  let o ← ObjectId 2
  insertMany "orders" (seedOrders o)
  createIndex "users" [("email", num 1)] [("unique", bool true)]
  createIndex "users" [("role", num 1)] []
  createIndex "products" [("category", num 1)] []
  createIndex "products" [("name", str "text"), ("description", str "text")] []
  createIndex "orders" [("userId", num 1)] []
  createIndex "orders" [("status", num 1)] []
  print ["=== MongoDB Initialization Complete ==="]
  print ["Created collections: users, products, orders"]
  print ["Inserted sample data and created indexes"]
  print ["Users count:", toString (← countDocuments "users")]
  print ["Products count:", toString (← countDocuments "products")]
  print ["Orders count:", toString (← countDocuments "orders")]

/-- A server on which the database `myapp` is `d` and every other database is as on `srv`. -/
def withMyapp (d : Database) (srv : String → Database) : String → Database :=
  fun n => if n = "myapp" then d else srv n

/-- One run of the script in a fresh session on the server `srv`, where `ObjectId()` has issued
`firstId` ids so far. -/
def run (srv : String → Database) (firstId : Nat) : Except Failure Unit × Shell :=
  mongoInit { server := srv, db := "test", nextId := firstId, out := [] }

/-- The database `myapp` after a run. -/
def myappAfter (srv : String → Database) (firstId : Nat) : Database :=
  (run srv firstId).2.server "myapp"

/-! ## Readings of the seed documents used in the statements -/

/-- The number held by field `k` of an object, when there is one. -/
def numField (fs : Document) (k : String) : Option Rat :=
  match fs.lookup k with
  | some (Value.num q) => some q
  | _ => none

/-- The subtotal `quantity * price` of one entry of the `items` array of an order. -/
def itemSubtotal : Value → Option Rat
  | Value.obj fs =>
    match numField fs "quantity", numField fs "price" with
    | some q, some p => some (q * p)
    | _, _ => none
  | _ => none

/-- The sum of the subtotals of a list of items. -/
def subtotalsSum : List Value → Option Rat
  | [] => some 0
  | x :: xs =>
    match itemSubtotal x, subtotalsSum xs with
    | some a, some b => some (a + b)
    | _, _ => none

/-- The sum of the subtotals of the items of an order. -/
def itemsTotal (o : Document) : Option Rat :=
  match o.lookup "items" with
  | some (Value.arr xs) => subtotalsSum xs
  | _ => none

/-- The seeded orders whose `orderId` is `id`. -/
def ordersWithId (i : Nat) (id : String) : List Document :=
  (seedOrders i).filter (fun o => decide (o.lookup "orderId" = some (Value.str id)))

/-- The database `db` with the documents `ds` appended to collection `coll`. -/
def Database.append (db : Database) (coll : String) (ds : List Document) : Database :=
  { db with docs := fun c => if c = coll then db.docs coll ++ ds else db.docs c }

/-- A database with one user, who has the email of a seed user, and a unique index on the
category of products; there is no index on users at all. -/
def categoryUniqueDb : Database :=
  { docs := fun c =>
      if c = "users" then [[("email", Value.str "john.doe@example.com")]] else [],
    indexes := [{ coll := "products", keys := [("category", Value.num 1)], unique := true }] }

/-- Whether the indexes `indexes` accept the batch `ds` for collection `coll` that holds
`existing`: no index refuses a document of the batch, given the documents that were there and
the documents of the batch before it. -/
def acceptsFrom (indexes : List Index) (coll : String) : List Document → List Document → Bool
  | _, [] => true
  | existing, d :: ds =>
    indexes.all (fun ix => !ix.rejects coll existing d) &&
      acceptsFrom indexes coll (existing ++ [d]) ds

/-- Whether no unique index of `db` refuses a document of the batch `ds` for `coll`. -/
def Database.accepts (db : Database) (coll : String) (ds : List Document) : Bool :=
  acceptsFrom db.indexes coll (db.docs coll) ds

/-- A database that holds one user, who has the email of a seed user, and no order, with a
unique index on the `orderId` of orders. -/
def orderIdUniqueDb : Database :=
  { docs := fun c =>
      if c = "users" then [[("email", Value.str "john.doe@example.com")]] else [],
    indexes := [{ coll := "orders", keys := [("orderId", Value.num 1)], unique := true }] }

/-! ## The seed data -/

/-- C5: every seed user has an email that is a string (so not null), and the emails of the seed
users are pairwise distinct; hence inserting the batch into an empty users collection that
already has the unique email index succeeds, and so does creating that index on a collection
that holds just the batch. -/
theorem seedUsers_emails_distinct (i : Nat) :
    (∀ u ∈ seedUsers i, ∃ e : String, u.lookup "email" = some (Value.str e)) ∧
    ((seedUsers i).map (fun u => u.lookup "email")).Nodup ∧
    (Database.insertMany
      { docs := fun _ => [],
        indexes := [{ coll := "users", keys := [("email", Value.num 1)], unique := true }] }
      "users" (seedUsers i)).2 = none ∧
    (∃ db, (Database.empty.append "users" (seedUsers i)).createIndex "users"
      [("email", Value.num 1)] [("unique", Value.bool true)] = Except.ok db) := by
  refine ⟨?_, ?_, rfl, ⟨_, rfl⟩⟩
  · intro u hu
    simp only [seedUsers, List.mem_cons, List.mem_singleton, List.not_mem_nil, or_false] at hu
    rcases hu with rfl | rfl | rfl
    · exact ⟨"john.doe@example.com", rfl⟩
    · exact ⟨"jane.smith@example.com", rfl⟩
    · exact ⟨"bob.johnson@example.com", rfl⟩
  · have h : (seedUsers i).map (fun u => u.lookup "email") =
        [some (Value.str "john.doe@example.com"), some (Value.str "jane.smith@example.com"),
          some (Value.str "bob.johnson@example.com")] := rfl
    rw [h]
    decide

/-- C6: for every seed order, `totalAmount` is the exact sum over its items of
`quantity * price`: 1 * 1299.99 + 2 * 29.99 = 1359.97 for ORD-001 and 1 * 89.99 = 89.99 for
ORD-002. -/
theorem seedOrders_total_eq_items (i : Nat) :
    (∀ o ∈ seedOrders i, ∃ t : Rat,
      o.lookup "totalAmount" = some (Value.num t) ∧ itemsTotal o = some t) ∧
    (seedOrders i).map itemsTotal = [some 1359.97, some 89.99] ∧
    (seedOrders i).map (fun o => o.lookup "totalAmount") =
      [some (Value.num 1359.97), some (Value.num 89.99)] := by
  have e1 : (1 * 1299.99 + (2 * 29.99 + 0) : Rat) = 1359.97 := by norm_num
  have e2 : (1 * 89.99 + 0 : Rat) = 89.99 := by norm_num
  have h1 : (seedOrders i).map itemsTotal =
      [some ((1 : Rat) * 1299.99 + (2 * 29.99 + 0)), some ((1 : Rat) * 89.99 + 0)] := rfl
  rw [e1, e2] at h1
  refine ⟨?_, h1, rfl⟩
  intro o ho
  simp only [seedOrders, List.mem_cons, List.mem_singleton, List.not_mem_nil, or_false] at ho
  rcases ho with rfl | rfl
  · exact ⟨1359.97, rfl, (show _ = some ((1 : Rat) * 1299.99 + (2 * 29.99 + 0)) from rfl).trans
      (congrArg some e1)⟩
  · exact ⟨89.99, rfl, (show _ = some ((1 : Rat) * 89.99 + 0) from rfl).trans (congrArg some e2)⟩

/-- C7: the `userId` of every seed order is the email of some seed user. -/
theorem seedOrders_userId_is_seed_email (i j : Nat) :
    ∀ o ∈ seedOrders i, ∃ u ∈ seedUsers j, ∃ e : String,
      o.lookup "userId" = some (Value.str e) ∧ u.lookup "email" = some (Value.str e) := by
  intro o ho
  simp only [seedOrders, List.mem_cons, List.mem_singleton, List.not_mem_nil, or_false] at ho
  rcases ho with rfl | rfl
  · exact ⟨_, List.mem_cons_self _ _, "john.doe@example.com", rfl, rfl⟩
  · exact ⟨_, List.mem_cons_of_mem _ (List.mem_cons_self _ _), "jane.smith@example.com",
      rfl, rfl⟩

/-- An instance on the second seed order: it carries the email of a seed user. -/
theorem seedOrders_userId_is_seed_email_witness :
    (seedOrders 0).get ⟨1, by decide⟩ ∈ seedOrders 0 ∧
    ∃ u ∈ seedUsers 0, ∃ e : String,
      ((seedOrders 0).get ⟨1, by decide⟩).lookup "userId" = some (Value.str e) ∧
      u.lookup "email" = some (Value.str e) :=
  ⟨List.get_mem _ _ _, seedOrders_userId_is_seed_email 0 0 _ (List.get_mem _ _ _)⟩

/-- C8: exactly one seed order has orderId ORD-001 and exactly one has ORD-002; ORD-001 has a
delivery date that is not null and status completed, ORD-002 has delivery date null and status
pending. -/
theorem seedOrders_fixture_values (i : Nat) :
    (∃ o, ordersWithId i "ORD-001" = [o] ∧
      (∃ v, o.lookup "deliveryDate" = some v ∧ v ≠ Value.null) ∧
      o.lookup "status" = some (Value.str "completed")) ∧
    (∃ o, ordersWithId i "ORD-002" = [o] ∧
      o.lookup "deliveryDate" = some Value.null ∧
      o.lookup "status" = some (Value.str "pending")) := by
  refine ⟨⟨_, rfl, ⟨Value.date (some "2024-09-05"), rfl, by simp⟩, rfl⟩, ⟨_, rfl, rfl, rfl⟩⟩

/-- C9: for every seed product, `inStock` is true exactly when `quantity` is positive. -/
theorem seedProducts_inStock_iff_quantity (i : Nat) :
    ∀ p ∈ seedProducts i, ∃ (b : Bool) (q : Rat),
      p.lookup "inStock" = some (Value.bool b) ∧ p.lookup "quantity" = some (Value.num q) ∧
      (b = true ↔ 0 < q) := by
  intro p hp
  simp only [seedProducts, List.mem_cons, List.mem_singleton, List.not_mem_nil, or_false] at hp
  rcases hp with rfl | rfl | rfl
  · exact ⟨true, 25, rfl, rfl, by norm_num⟩
  · exact ⟨true, 150, rfl, rfl, by norm_num⟩
  · exact ⟨false, 0, rfl, rfl, by norm_num⟩

/-- An instance on the third seed product (quantity 0, not in stock). -/
theorem seedProducts_inStock_iff_quantity_witness :
    (seedProducts 0).get ⟨2, by decide⟩ ∈ seedProducts 0 ∧
    ∃ (b : Bool) (q : Rat),
      ((seedProducts 0).get ⟨2, by decide⟩).lookup "inStock" = some (Value.bool b) ∧
      ((seedProducts 0).get ⟨2, by decide⟩).lookup "quantity" = some (Value.num q) ∧
      (b = true ↔ 0 < q) :=
  ⟨List.get_mem _ _ _, seedProducts_inStock_iff_quantity 0 _ (List.get_mem _ _ _)⟩

/-! ## Runs of the script -/

/-- C1: a run on a server whose database `myapp` is empty succeeds; afterwards users holds 3
documents, products 3 and orders 2, and the report prints these three counts. -/
theorem run_on_empty_counts (srv : String → Database) (n : Nat) :
    (run (withMyapp Database.empty srv) n).1 = Except.ok () ∧
    (myappAfter (withMyapp Database.empty srv) n).countDocuments "users" = 3 ∧
    (myappAfter (withMyapp Database.empty srv) n).countDocuments "products" = 3 ∧
    (myappAfter (withMyapp Database.empty srv) n).countDocuments "orders" = 2 ∧
    (run (withMyapp Database.empty srv) n).2.out =
      ["=== MongoDB Initialization Complete ===",
       "Created collections: users, products, orders",
       "Inserted sample data and created indexes",
       "Users count: 3", "Products count: 3", "Orders count: 2"] :=
  ⟨rfl, rfl, rfl, rfl, by with_unfolding_all rfl⟩

/-- C2: after a run on an empty database the declared indexes are exactly the six of the
script; the email index is the only unique one and the name+description index the only text
index. -/
theorem run_on_empty_indexes (srv : String → Database) (n : Nat) :
    (myappAfter (withMyapp Database.empty srv) n).indexes =
      [ { coll := "users", keys := [("email", Value.num 1)], unique := true },
        { coll := "users", keys := [("role", Value.num 1)], unique := false },
        { coll := "products", keys := [("category", Value.num 1)], unique := false },
        { coll := "products",
          keys := [("name", Value.str "text"), ("description", Value.str "text")],
          unique := false },
        { coll := "orders", keys := [("userId", Value.num 1)], unique := false },
        { coll := "orders", keys := [("status", Value.num 1)], unique := false } ] ∧
    (myappAfter (withMyapp Database.empty srv) n).indexes.filter (fun ix => ix.unique) =
      [ { coll := "users", keys := [("email", Value.num 1)], unique := true } ] ∧
    (myappAfter (withMyapp Database.empty srv) n).indexes.filter (fun ix => ix.isText) =
      [ { coll := "products",
          keys := [("name", Value.str "text"), ("description", Value.str "text")],
          unique := false } ] :=
  ⟨rfl, rfl, rfl⟩

/-- C3: a second run on the server left by a successful run on an empty database fails: the
users insertMany raises the duplicate-key error of the unique index on users.email. -/
theorem rerun_fails_duplicate_email (srv : String → Database) (n m : Nat) :
    (run (withMyapp Database.empty srv) n).1 = Except.ok () ∧
    (run (run (withMyapp Database.empty srv) n).2.server m).1 =
      Except.error
        { call := Call.insertMany "users",
          error := MongoError.duplicateKey
            { coll := "users", keys := [("email", Value.num 1)], unique := true } } :=
  ⟨rfl, rfl⟩

/-! ## The engine under a unique index, and without one -/

/-- Appending no document changes nothing. -/
theorem Database.append_nil (db : Database) (coll : String) : db.append coll [] = db := by
  cases db with
  | mk docs indexes =>
    simp only [Database.append, List.append_nil, Database.mk.injEq, and_true]
    funext c
    by_cases h : c = coll
    · simp [h]
    · simp [h]

/-- Appending twice to a collection appends the concatenation. -/
theorem Database.append_append (db : Database) (coll : String) (xs ys : List Document) :
    (db.append coll xs).append coll ys = db.append coll (xs ++ ys) := by
  simp only [Database.append, List.append_assoc, Database.mk.injEq, and_true]
  funext c
  by_cases h : c = coll
  · simp [h]
  · simp [h]

/-- A batch that the indexes accept is appended as a whole. -/
theorem Database.insertMany_of_accepts (coll : String) (ds : List Document) :
    ∀ db : Database, db.accepts coll ds = true →
      db.insertMany coll ds = (db.append coll ds, none) := by
  induction ds with
  | nil =>
    intro db _
    simp [Database.insertMany, Database.append_nil]
  | cons d ds ih =>
    intro db h
    simp only [Database.accepts, acceptsFrom, Bool.and_eq_true, List.all_eq_true,
      Bool.not_eq_true'] at h
    have hnone : db.indexes.find? (fun ix => ix.rejects coll (db.docs coll) d) = none := by
      rw [List.find?_eq_none]
      intro ix hix
      simp [h.1 ix hix]
    have hins : db.insert coll d = Except.ok (db.append coll [d]) := by
      simp only [Database.insert, hnone]
      rfl
    have h1 : (db.append coll [d]).accepts coll ds = true := by
      simpa [Database.accepts, Database.append] using h.2
    simp only [Database.insertMany, hins, ih (db.append coll [d]) h1, Database.append_append,
      List.singleton_append]

/-- A batch that the indexes do not accept makes insertMany fail. -/
theorem Database.insertMany_of_not_accepts (coll : String) (ds : List Document) :
    ∀ db : Database, db.accepts coll ds = false →
      ∃ db1 err, db.insertMany coll ds = (db1, some err) := by
  induction ds with
  | nil =>
    intro db h
    simp [Database.accepts, acceptsFrom] at h
  | cons d ds ih =>
    intro db h
    cases hf : db.indexes.find? (fun ix => ix.rejects coll (db.docs coll) d) with
    | some ix =>
      exact ⟨db, MongoError.duplicateKey ix, by simp only [Database.insertMany, Database.insert, hf]⟩
    | none =>
      have hall : db.indexes.all (fun ix => !ix.rejects coll (db.docs coll) d) = true := by
        rw [List.find?_eq_none] at hf
        simpa using hf
      have h1 : (db.append coll [d]).accepts coll ds = false := by
        simpa [Database.accepts, acceptsFrom, hall, Database.append] using h
      obtain ⟨db1, err, hrest⟩ := ih (db.append coll [d]) h1
      have hins : db.insert coll d = Except.ok (db.append coll [d]) := by
        simp only [Database.insert, hf]
        rfl
      exact ⟨db1, err, by simp only [Database.insertMany, hins, hrest]⟩

/-- An index refuses a document against a collection as soon as it refuses it against a part
of the collection. -/
theorem Index.rejects_append_left (ix : Index) (coll : String) (xs ys : List Document)
    (d : Document) (h : ix.rejects coll xs d = true) : ix.rejects coll (xs ++ ys) d = true := by
  simp only [Index.rejects, Bool.and_eq_true, List.any_eq_true, decide_eq_true_eq,
    List.mem_append] at h ⊢
  obtain ⟨hcu, e, he, hk⟩ := h
  exact ⟨hcu, e, Or.inl he, hk⟩

/-- In an accepted batch no document is refused against the documents that were there. -/
theorem acceptsFrom_not_rejects (indexes : List Index) (coll : String) (ds : List Document) :
    ∀ existing : List Document, acceptsFrom indexes coll existing ds = true →
      ∀ ix ∈ indexes, ∀ d ∈ ds, ix.rejects coll existing d = false := by
  induction ds with
  | nil =>
    intro existing _ ix _ d hd
    cases hd
  | cons d0 ds ih =>
    intro existing h ix hix d hd
    simp only [acceptsFrom, Bool.and_eq_true, List.all_eq_true, Bool.not_eq_true'] at h
    rcases List.mem_cons.mp hd with rfl | hd1
    · exact h.1 ix hix
    · have h2 := ih (existing ++ [d0]) h.2 ix hix d hd1
      by_contra hne
      have ht : ix.rejects coll existing d = true := by simpa using hne
      rw [Index.rejects_append_left ix coll existing [d0] d ht] at h2
      exact Bool.noConfusion h2

/-- Two lists with members that share a key do not have distinct keys when joined. -/
theorem not_nodup_append_of_common {α : Type} (f : Document → α) (xs ys : List Document)
    (x y : Document) (hx : x ∈ xs) (hy : y ∈ ys) (hxy : f x = f y) :
    ¬ ((xs ++ ys).map f).Nodup := by
  intro hnd
  rw [List.map_append, List.nodup_append] at hnd
  exact hnd.2.2 (List.mem_map_of_mem f hx) (hxy ▸ List.mem_map_of_mem f hy)

/-- C4: in the database left by a run on an empty database, inserting into users a document
whose email is the email of a user in the collection fails with the duplicate-key error of the
email index, whatever the other fields, and leaves the database as it was. -/
theorem insert_existing_email_fails (srv : String → Database) (n : Nat) (d u : Document)
    (hu : u ∈ (myappAfter (withMyapp Database.empty srv) n).docs "users")
    (he : d.lookup "email" = u.lookup "email") :
    (myappAfter (withMyapp Database.empty srv) n).insertMany "users" [d] =
      ((myappAfter (withMyapp Database.empty srv) n),
        some (MongoError.duplicateKey
          { coll := "users", keys := [("email", Value.num 1)], unique := true })) := by
  have hidx : (myappAfter (withMyapp Database.empty srv) n).indexes =
      { coll := "users", keys := [("email", Value.num 1)], unique := true } ::
      [ { coll := "users", keys := [("role", Value.num 1)], unique := false },
        { coll := "products", keys := [("category", Value.num 1)], unique := false },
        { coll := "products",
          keys := [("name", Value.str "text"), ("description", Value.str "text")],
          unique := false },
        { coll := "orders", keys := [("userId", Value.num 1)], unique := false },
        { coll := "orders", keys := [("status", Value.num 1)], unique := false } ] := rfl
  have hrej : Index.rejects { coll := "users", keys := [("email", Value.num 1)], unique := true }
      "users" ((myappAfter (withMyapp Database.empty srv) n).docs "users") d = true := by
    simp only [Index.rejects, decide_True, Bool.and_self, Bool.true_and, List.any_eq_true,
      decide_eq_true_eq]
    exact ⟨u, hu, by simp [Index.keyOf, Document.key, he]⟩
  have hins : (myappAfter (withMyapp Database.empty srv) n).insert "users" d =
      Except.error (MongoError.duplicateKey
        { coll := "users", keys := [("email", Value.num 1)], unique := true }) := by
    simp only [Database.insert, hidx, List.find?_cons, hrej]
  simp only [Database.insertMany, hins]

/-- An instance: a document that has only the email of Jane Smith is refused. -/
theorem insert_existing_email_fails_witness :
    (seedUsers 0).get ⟨1, by decide⟩ ∈
      (myappAfter (withMyapp Database.empty (fun _ => Database.empty)) 0).docs "users" ∧
    List.lookup "email" [("email", Value.str "jane.smith@example.com")] =
      ((seedUsers 0).get ⟨1, by decide⟩).lookup "email" ∧
    (myappAfter (withMyapp Database.empty (fun _ => Database.empty)) 0).insertMany "users"
        [[("email", Value.str "jane.smith@example.com")]] =
      ((myappAfter (withMyapp Database.empty (fun _ => Database.empty)) 0),
        some (MongoError.duplicateKey
          { coll := "users", keys := [("email", Value.num 1)], unique := true })) :=
  ⟨List.get_mem (seedUsers 0) 1 (by decide), rfl,
   insert_existing_email_fails (fun _ => Database.empty) 0
    [("email", Value.str "jane.smith@example.com")] ((seedUsers 0).get ⟨1, by decide⟩)
    (List.get_mem (seedUsers 0) 1 (by decide)) rfl⟩

/-! ## A database that already holds a user with a seed email -/

/-- C10, refuted as stated: `categoryUniqueDb` has no index on users and holds a user with the
email of John Doe, yet the run fails at the products insertMany (the two Electronics products
collide on the unique category index), not at the creation of the email index; only one seed
product and no seed order have been inserted. -/
theorem run_categoryUnique_fails_at_products :
    (∀ ix ∈ categoryUniqueDb.indexes, ix.coll ≠ "users") ∧
    (∃ e ∈ categoryUniqueDb.docs "users", ∃ u ∈ seedUsers 0,
      e.lookup "email" = u.lookup "email") ∧
    (run (withMyapp categoryUniqueDb (fun _ => Database.empty)) 0).1 =
      Except.error
        { call := Call.insertMany "products",
          error := MongoError.duplicateKey
            { coll := "products", keys := [("category", Value.num 1)], unique := true } } ∧
    (∀ err, (run (withMyapp categoryUniqueDb (fun _ => Database.empty)) 0).1 ≠
      Except.error
        { call := Call.createIndex "users" [("email", Value.num 1)]
            [("unique", Value.bool true)],
          error := err }) ∧
    (myappAfter (withMyapp categoryUniqueDb (fun _ => Database.empty)) 0).docs "products" =
      (seedProducts 3).take 1 ∧
    (myappAfter (withMyapp categoryUniqueDb (fun _ => Database.empty)) 0).docs "orders" = [] := by
  have hrun : (run (withMyapp categoryUniqueDb (fun _ => Database.empty)) 0).1 =
      Except.error
        { call := Call.insertMany "products",
          error := MongoError.duplicateKey
            { coll := "products", keys := [("category", Value.num 1)], unique := true } } := rfl
  refine ⟨by decide, ⟨_, List.mem_cons_self _ _, _, List.mem_cons_self _ _, rfl⟩, hrun, ?_,
    rfl, rfl⟩
  intro err h
  rw [hrun] at h
  simp at h

/-- The run reaches the first createIndex call with the three seed batches appended when the
indexes accept them, and stops at the refused insertMany otherwise. -/
theorem run_result_by_acceptance (srv : String → Database) (n : Nat) :
    (((srv "myapp").accepts "users" (seedUsers n) = true ∧
      (srv "myapp").accepts "products" (seedProducts (n + 3)) = true ∧
      (srv "myapp").accepts "orders" (seedOrders (n + 3 + 3)) = true) →
      ∀ err, ((((srv "myapp").append "users" (seedUsers n)).append "products"
          (seedProducts (n + 3))).append "orders" (seedOrders (n + 3 + 3))).createIndex "users"
            [("email", Value.num 1)] [("unique", Value.bool true)] = Except.error err →
        run srv n =
          (Except.error
            { call := Call.createIndex "users" [("email", Value.num 1)]
                [("unique", Value.bool true)],
              error := err },
           Shell.setCurrent
            (Shell.setCurrent
              (Shell.setCurrent
                { server := srv, db := "myapp", nextId := n + 3 + 3 + 2, out := [] }
                ((srv "myapp").append "users" (seedUsers n)))
              (((srv "myapp").append "users" (seedUsers n)).append "products"
                (seedProducts (n + 3))))
            ((((srv "myapp").append "users" (seedUsers n)).append "products"
              (seedProducts (n + 3))).append "orders" (seedOrders (n + 3 + 3))))) ∧
    (¬ ((srv "myapp").accepts "users" (seedUsers n) = true ∧
      (srv "myapp").accepts "products" (seedProducts (n + 3)) = true ∧
      (srv "myapp").accepts "orders" (seedOrders (n + 3 + 3)) = true) →
      ∃ coll err, (run srv n).1 =
        Except.error { call := Call.insertMany coll, error := err }) := by
  have hPacc : ((srv "myapp").append "users" (seedUsers n)).accepts "products"
      (seedProducts (n + 3)) = (srv "myapp").accepts "products" (seedProducts (n + 3)) := by
    simp [Database.accepts, Database.append]
  have hOacc : (((srv "myapp").append "users" (seedUsers n)).append "products"
      (seedProducts (n + 3))).accepts "orders" (seedOrders (n + 3 + 3)) =
      (srv "myapp").accepts "orders" (seedOrders (n + 3 + 3)) := by
    simp [Database.accepts, Database.append]
  constructor
  · rintro ⟨aU, aP, aO⟩ err herr
    have hU := Database.insertMany_of_accepts "users" (seedUsers n) (srv "myapp") aU
    have hP := Database.insertMany_of_accepts "products" (seedProducts (n + 3))
      ((srv "myapp").append "users" (seedUsers n)) (hPacc.trans aP)
    have hO := Database.insertMany_of_accepts "orders" (seedOrders (n + 3 + 3))
      (((srv "myapp").append "users" (seedUsers n)).append "products" (seedProducts (n + 3)))
      (hOacc.trans aO)
    simp only [run, mongoInit, Bind.bind, Script.bind, getSiblingDB, ObjectId, insertMany,
      createIndex, Shell.current, Shell.setCurrent, if_true, hU, hP, hO, herr]
  · intro hnot
    cases aU : (srv "myapp").accepts "users" (seedUsers n) with
    | false =>
      obtain ⟨db1, err, hU⟩ :=
        Database.insertMany_of_not_accepts "users" (seedUsers n) (srv "myapp") aU
      refine ⟨"users", err, ?_⟩
      simp only [run, mongoInit, Bind.bind, Script.bind, getSiblingDB, ObjectId, insertMany,
        Shell.current, hU]
    | true =>
      have hU := Database.insertMany_of_accepts "users" (seedUsers n) (srv "myapp") aU
      cases aP : (srv "myapp").accepts "products" (seedProducts (n + 3)) with
      | false =>
        obtain ⟨db1, err, hP⟩ :=
          Database.insertMany_of_not_accepts "products" (seedProducts (n + 3))
            ((srv "myapp").append "users" (seedUsers n)) (hPacc.trans aP)
        refine ⟨"products", err, ?_⟩
        simp only [run, mongoInit, Bind.bind, Script.bind, getSiblingDB, ObjectId, insertMany,
          Shell.current, Shell.setCurrent, if_true, hU, hP]
      | true =>
        have hP := Database.insertMany_of_accepts "products" (seedProducts (n + 3))
          ((srv "myapp").append "users" (seedUsers n)) (hPacc.trans aP)
        cases aO : (srv "myapp").accepts "orders" (seedOrders (n + 3 + 3)) with
        | false =>
          obtain ⟨db1, err, hO⟩ :=
            Database.insertMany_of_not_accepts "orders" (seedOrders (n + 3 + 3))
              (((srv "myapp").append "users" (seedUsers n)).append "products"
                (seedProducts (n + 3))) (hOacc.trans aO)
          refine ⟨"orders", err, ?_⟩
          simp only [run, mongoInit, Bind.bind, Script.bind, getSiblingDB, ObjectId,
            insertMany, Shell.current, Shell.setCurrent, if_true, hU, hP, hO]
        | true => exact absurd ⟨aU, aP, aO⟩ hnot

/-- With a user that shares its email with a seed user and an accepted users batch, the
creation of the unique email index fails. -/
theorem createIndex_email_fails (db : Database) (n : Nat)
    (aU : db.accepts "users" (seedUsers n) = true)
    (hdup : ∃ e ∈ db.docs "users", ∃ u ∈ seedUsers n, e.lookup "email" = u.lookup "email") :
    ∃ err, (((db.append "users" (seedUsers n)).append "products"
      (seedProducts (n + 3))).append "orders" (seedOrders (n + 3 + 3))).createIndex "users"
        [("email", Value.num 1)] [("unique", Value.bool true)] = Except.error err := by
  obtain ⟨e, he, u, hu, heu⟩ := hdup
  unfold Database.createIndex
  cases hf : List.find? (fun e => decide (e.coll = "users") &&
      decide (e.keys = [("email", Value.num 1)]))
      (((db.append "users" (seedUsers n)).append "products"
        (seedProducts (n + 3))).append "orders" (seedOrders (n + 3 + 3))).indexes with
  | some ix =>
    have hmem : ix ∈ db.indexes := List.mem_of_find?_eq_some hf
    have hck : ix.coll = "users" ∧ ix.keys = [("email", Value.num 1)] := by
      have := List.find?_some hf
      simpa only [Bool.and_eq_true, decide_eq_true_eq] using this
    have hrej := acceptsFrom_not_rejects db.indexes "users" (seedUsers n) (db.docs "users")
      aU ix hmem u hu
    have hfalse : ix.unique = false := by
      by_contra hne
      have hun : ix.unique = true := by simpa using hne
      have : ix.rejects "users" (db.docs "users") u = true := by
        simp only [Index.rejects, hck.1, hun, decide_True, Bool.and_self, Bool.true_and,
          List.any_eq_true, decide_eq_true_eq]
        exact ⟨e, he, by simp [Index.keyOf, Document.key, hck.2, heu]⟩
      rw [this] at hrej
      exact Bool.noConfusion hrej
    exact ⟨MongoError.indexOptionsConflict ix, by simp [hfalse, optUnique]⟩
  | none =>
    refine ⟨MongoError.duplicateKey
      { coll := "users", keys := [("email", Value.num 1)], unique := true }, ?_⟩
    have hnd : ¬ (List.map
        (Index.keyOf { coll := "users", keys := [("email", Value.num 1)], unique := true })
        (db.docs "users" ++ seedUsers n)).Nodup :=
      not_nodup_append_of_common _ _ _ e u he hu
        (by simp [Index.keyOf, Document.key, heu])
    rw [List.map_append] at hnd
    simp [optUnique, Database.append, hnd]

/-- With a user that shares its email with a seed user, an accepted users batch leaves no room
for a unique index on the email of users. -/
theorem no_unique_email_of_accepts (db : Database) (n : Nat)
    (aU : db.accepts "users" (seedUsers n) = true)
    (hdup : ∃ e ∈ db.docs "users", ∃ u ∈ seedUsers n, e.lookup "email" = u.lookup "email") :
    ∀ ix ∈ db.indexes, ix.coll = "users" → ix.keys.map Prod.fst = ["email"] →
      ix.unique = false := by
  obtain ⟨e, he, u, hu, heu⟩ := hdup
  intro ix hix hcoll hkeys
  have hrej := acceptsFrom_not_rejects db.indexes "users" (seedUsers n) (db.docs "users")
    aU ix hix u hu
  have hkey : ∀ d : Document, ix.keyOf d = [d.key "email"] := by
    intro d
    have : ix.keyOf d = (ix.keys.map Prod.fst).map d.key := by
      simp [Index.keyOf, List.map_map, Function.comp_def]
    rw [this, hkeys]
    rfl
  by_contra hne
  have hun : ix.unique = true := by simpa using hne
  have : ix.rejects "users" (db.docs "users") u = true := by
    simp only [Index.rejects, hcoll, hun, decide_True, Bool.and_self, Bool.true_and,
      List.any_eq_true, decide_eq_true_eq]
    exact ⟨e, he, by simp [hkey, Document.key, heu]⟩
  rw [this] at hrej
  exact Bool.noConfusion hrej

/-- C10, amended: let the database `myapp` hold a user whose email is the email of a seed
user. When no unique index refuses a document of the three seed batches as it is inserted, the
run fails at the first createIndex call (the unique email index); the three seed batches have
been appended to the documents that were there, no index has been added and no report line has
been printed. When some unique index refuses a seed document, the run does not get that far,
so the condition is exactly what is needed. -/
theorem run_with_colliding_user (srv : String → Database) (n : Nat)
    (hdup : ∃ e ∈ (srv "myapp").docs "users", ∃ u ∈ seedUsers n,
      e.lookup "email" = u.lookup "email") :
    ((srv "myapp").accepts "users" (seedUsers n) = true ∧
      (srv "myapp").accepts "products" (seedProducts (n + 3)) = true ∧
      (srv "myapp").accepts "orders" (seedOrders (n + 3 + 3)) = true) ↔
    ((∃ err, (run srv n).1 =
      Except.error
        { call := Call.createIndex "users" [("email", Value.num 1)]
            [("unique", Value.bool true)],
          error := err }) ∧
    (myappAfter srv n).docs "users" = (srv "myapp").docs "users" ++ seedUsers n ∧
    (myappAfter srv n).docs "products" = (srv "myapp").docs "products" ++ seedProducts (n + 3) ∧
    (myappAfter srv n).docs "orders" = (srv "myapp").docs "orders" ++ seedOrders (n + 3 + 3) ∧
    (myappAfter srv n).indexes = (srv "myapp").indexes ∧
    (run srv n).2.out = []) := by
  constructor
  · intro hacc
    obtain ⟨err, herr⟩ := createIndex_email_fails (srv "myapp") n hacc.1 hdup
    have hrun := (run_result_by_acceptance srv n).1 hacc err herr
    rw [myappAfter, hrun]
    refine ⟨⟨err, rfl⟩, ?_, ?_, ?_, ?_, ?_⟩
    · simp [Shell.setCurrent, Database.append]
    · simp [Shell.setCurrent, Database.append]
    · simp [Shell.setCurrent, Database.append]
    · simp [Shell.setCurrent, Database.append]
    · simp [Shell.setCurrent]
  · rintro ⟨⟨err, herr⟩, _⟩
    by_contra hnot
    obtain ⟨coll, err1, h1⟩ := (run_result_by_acceptance srv n).2 hnot
    rw [h1] at herr
    simp at herr

/-- An instance: `orderIdUniqueDb` holds a user with the email of John Doe and has a unique
index on the `orderId` of orders, which refuses no seed order; the run on it stops at the
creation of the email index with all seed documents inserted. -/
theorem run_with_colliding_user_witness :
    (∃ e ∈ (withMyapp orderIdUniqueDb (fun _ => Database.empty) "myapp").docs "users",
      ∃ u ∈ seedUsers 0, e.lookup "email" = u.lookup "email") ∧
    ((withMyapp orderIdUniqueDb (fun _ => Database.empty) "myapp").accepts "users"
        (seedUsers 0) = true ∧
      (withMyapp orderIdUniqueDb (fun _ => Database.empty) "myapp").accepts "products"
        (seedProducts (0 + 3)) = true ∧
      (withMyapp orderIdUniqueDb (fun _ => Database.empty) "myapp").accepts "orders"
        (seedOrders (0 + 3 + 3)) = true) ∧
    ((∃ err, (run (withMyapp orderIdUniqueDb (fun _ => Database.empty)) 0).1 =
      Except.error
        { call := Call.createIndex "users" [("email", Value.num 1)]
            [("unique", Value.bool true)],
          error := err }) ∧
    (myappAfter (withMyapp orderIdUniqueDb (fun _ => Database.empty)) 0).docs "users" =
      (withMyapp orderIdUniqueDb (fun _ => Database.empty) "myapp").docs "users" ++
        seedUsers 0 ∧
    (myappAfter (withMyapp orderIdUniqueDb (fun _ => Database.empty)) 0).docs "products" =
      (withMyapp orderIdUniqueDb (fun _ => Database.empty) "myapp").docs "products" ++
        seedProducts (0 + 3) ∧
    (myappAfter (withMyapp orderIdUniqueDb (fun _ => Database.empty)) 0).docs "orders" =
      (withMyapp orderIdUniqueDb (fun _ => Database.empty) "myapp").docs "orders" ++
        seedOrders (0 + 3 + 3) ∧
    (myappAfter (withMyapp orderIdUniqueDb (fun _ => Database.empty)) 0).indexes =
      (withMyapp orderIdUniqueDb (fun _ => Database.empty) "myapp").indexes ∧
    (run (withMyapp orderIdUniqueDb (fun _ => Database.empty)) 0).2.out = []) :=
  ⟨⟨_, List.mem_cons_self _ _, _, List.mem_cons_self _ _, rfl⟩,
   ⟨rfl, rfl, rfl⟩,
   (run_with_colliding_user (withMyapp orderIdUniqueDb (fun _ => Database.empty)) 0
     ⟨_, List.mem_cons_self _ _, _, List.mem_cons_self _ _, rfl⟩).mp ⟨rfl, rfl, rfl⟩⟩

end MongoInit
